import Mathlib

/-!
Shallow embedding of `src/ray_tracing__advance/raytrace.cpp` (the `Raytracer`
class of the vk_raytracing_tutorial_KHR repository) and proofs about it.

The embedding keeps the source's names and control flow.  Device-side effects
(buffer uploads, Vulkan object creation) are modelled by the data that the
code computes and hands to the device: geometry descriptors, BLAS/TLAS record
lists, shader-group lists, the SBT byte buffer, and the four strided buffer
regions of the trace dispatch.
-/

namespace Raytrace

/-! ## Basic Vulkan-side vocabulary -/

/-- `vk::GeometryTypeKHR` as used in this file: triangles or AABBs. -/
inductive GeometryTypeKHR
  | eTriangles
  | eAabbs
  deriving DecidableEq, Repr

/-- `vk::IndexType` as used in this file. -/
inductive IndexType
  | eUint32
  | eNoneKHR
  deriving DecidableEq, Repr

/-- `vk::Format` values used by the geometry descriptors. -/
inductive Format
  | eR32G32B32Sfloat
  | eUndefined
  deriving DecidableEq, Repr

/-! ## Scene-side inputs (from `obj_loader.h` / `raytrace.hpp`)

Only the fields this translation unit reads are modelled.  Buffer handles are
modelled as their device addresses (natural numbers): `raytrace.cpp` only ever
turns a buffer into an address via `getBufferAddress`. -/

/-- An OBJ model batch: counts and GPU buffer addresses read by
`objectToVkGeometryKHR`. -/
structure ObjModel where
  nbIndices : Nat
  nbVertices : Nat
  vertexAddress : Nat
  indexAddress : Nat
  deriving DecidableEq, Repr

/-- One implicit (analytic) primitive; the embedding only needs its identity. -/
structure ObjImplicit where
  tag : Nat
  deriving DecidableEq, Repr

/-- A 4x4 transform; kept opaque (an identifier), since `raytrace.cpp` never
inspects matrix entries, it only copies them. -/
structure Transform where
  id : Nat
  deriving DecidableEq, Repr

/-- `ImplInst`: the implicit-primitive set with its buffer address, transform
and the BLAS index recorded by `createBottomLevelAS`. -/
structure ImplInst where
  objImpl : List ObjImplicit
  implBufAddress : Nat
  transform : Transform
  blasId : Nat
  deriving DecidableEq, Repr

/-- A scene instance (`ObjInstance`): transform plus the index of the model it
instantiates. -/
structure ObjInstance where
  transform : Transform
  objIndex : Nat
  deriving DecidableEq, Repr

/-! ## Geometry descriptors (BLAS inputs) -/

/-- `vk::AccelerationStructureCreateGeometryTypeInfoKHR` fields set by the
source. -/
structure AsCreateGeometryTypeInfo where
  geometryType : GeometryTypeKHR
  indexType : IndexType
  vertexFormat : Format
  maxPrimitiveCount : Nat
  maxVertexCount : Nat
  allowsTransforms : Bool
  deriving DecidableEq, Repr

/-- The geometry payload of `vk::AccelerationStructureGeometryKHR`:
either triangle data or AABB data, with the fields the source sets. -/
inductive GeometryData
  | triangles (vertexFormat : Format) (vertexData : Nat) (vertexStride : Nat)
      (indexType : IndexType) (indexData : Nat)
  | aabbs (data : Nat) (stride : Nat)
  deriving DecidableEq, Repr

/-- `vk::AccelerationStructureGeometryKHR` as set up by the source; the only
flag ever used is `eNoDuplicateAnyHitInvocation`. -/
structure AsGeometry where
  geometryType : GeometryTypeKHR
  noDuplicateAnyHitInvocation : Bool
  geometry : GeometryData
  deriving DecidableEq, Repr

/-- `vk::AccelerationStructureBuildOffsetInfoKHR` fields set by the source. -/
structure AsBuildOffsetInfo where
  firstVertex : Nat
  primitiveCount : Nat
  primitiveOffset : Nat
  transformOffset : Nat
  deriving DecidableEq, Repr

/-- `nvvk::RaytracingBuilderKHR::Blas`: the three parallel per-geometry lists
the helper consumes. -/
structure Blas where
  asGeometry : List AsGeometry
  asCreateGeometryInfo : List AsCreateGeometryTypeInfo
  asBuildOffsetInfo : List AsBuildOffsetInfo
  deriving DecidableEq, Repr

/-- `sizeof(VertexObj)`: position, normal, color (vec3 each) + texcoord
(vec2), all 32-bit floats. -/
def sizeofVertexObj : Nat := 44

/-- `sizeof(ObjImplicit)`: two vec3 AABB corners + objType + two ints
(per the tutorial's implicit-primitive struct). -/
def sizeofObjImplicit : Nat := 36

/-- `Raytracer::objectToVkGeometryKHR`: converts one OBJ batch into the
triangle geometry descriptor used for its BLAS.  A direct translation of
lines 72-113 of `raytrace.cpp`; note that it performs no validation and its
primitive count is `nbIndices / 3` with truncating natural division. -/
def objectToVkGeometryKHR (model : ObjModel) : Blas :=
  let asCreate : AsCreateGeometryTypeInfo :=
    { geometryType := .eTriangles
      indexType := .eUint32
      vertexFormat := .eR32G32B32Sfloat
      maxPrimitiveCount := model.nbIndices / 3  -- Nb triangles
      maxVertexCount := model.nbVertices
      allowsTransforms := false }
  let vertexAddress := model.vertexAddress
  let indexAddress := model.indexAddress
  let triangles : GeometryData :=
    .triangles asCreate.vertexFormat vertexAddress sizeofVertexObj
      asCreate.indexType indexAddress
  let asGeom : AsGeometry :=
    { geometryType := asCreate.geometryType
      noDuplicateAnyHitInvocation := true
      geometry := triangles }
  let offset : AsBuildOffsetInfo :=
    { firstVertex := 0
      primitiveCount := asCreate.maxPrimitiveCount
      primitiveOffset := 0
      transformOffset := 0 }
  { asGeometry := [asGeom]
    asCreateGeometryInfo := [asCreate]
    asBuildOffsetInfo := [offset] }

/-- `Raytracer::implicitToVkGeometryKHR`: the AABB geometry descriptor for the
aggregate implicit-primitive BLAS (lines 119-155). -/
def implicitToVkGeometryKHR (implicitObj : ImplInst) : Blas :=
  let asCreate : AsCreateGeometryTypeInfo :=
    { geometryType := .eAabbs
      indexType := .eNoneKHR
      vertexFormat := .eUndefined
      maxPrimitiveCount := implicitObj.objImpl.length
      maxVertexCount := 0
      allowsTransforms := false }
  let dataAddress := implicitObj.implBufAddress
  let asGeom : AsGeometry :=
    { geometryType := asCreate.geometryType
      noDuplicateAnyHitInvocation := true
      geometry := .aabbs dataAddress sizeofObjImplicit }
  let offset : AsBuildOffsetInfo :=
    { firstVertex := 0
      primitiveCount := asCreate.maxPrimitiveCount
      primitiveOffset := 0
      transformOffset := 0 }
  { asGeometry := [asGeom]
    asCreateGeometryInfo := [asCreate]
    asBuildOffsetInfo := [offset] }

/-! ## Bottom-level acceleration structures -/

/-- `Raytracer::createBottomLevelAS` (lines 158-182): one BLAS per model, then
the aggregate implicit BLAS if the implicit set is non-empty, recording its
index into `implicitObj.blasId`.  Returns the BLAS list passed to
`m_rtBuilder.buildBlas` together with the (possibly mutated) `implicitObj`. -/
def createBottomLevelAS (models : List ObjModel) (implicitObj : ImplInst) :
    List Blas × ImplInst :=
  let allBlas := models.map (fun obj => objectToVkGeometryKHR obj)
  if implicitObj.objImpl.isEmpty then
    (allBlas, implicitObj)
  else
    let blas := implicitToVkGeometryKHR implicitObj
    let allBlas := allBlas ++ [blas]
    (allBlas, { implicitObj with blasId := allBlas.length - 1 })

/-! ## Top-level acceleration structure -/

/-- `nvvk::RaytracingBuilderKHR::Instance` fields set by the source. -/
structure Instance where
  transform : Transform
  instanceId : Nat
  blasId : Nat
  hitGroupId : Nat
  triangleFacingCullDisable : Bool
  deriving DecidableEq, Repr

/-- `Raytracer::createTopLevelAS` (lines 184-212): one instance record per
scene instance (hit group 0, `instanceId = i`), plus one synthetic record for
the implicit aggregate (hit group 1, `instanceId = blasId`) when the implicit
set is non-empty.  Returns the record list passed to
`m_rtBuilder.buildTlas`. -/
def createTopLevelAS (instances : List ObjInstance) (implicitObj : ImplInst) :
    List Instance :=
  let tlas := instances.enum.map fun p =>
    { transform := p.2.transform  -- Position of the instance
      instanceId := p.1           -- gl_InstanceID
      blasId := p.2.objIndex
      hitGroupId := 0  -- We will use the same hit group for all objects
      triangleFacingCullDisable := true : Instance }
  if implicitObj.objImpl.isEmpty then
    tlas
  else
    tlas ++ [{ transform := implicitObj.transform
               instanceId := implicitObj.blasId  -- Same for material index
               blasId := implicitObj.blasId
               hitGroupId := 1  -- the second hit group
               triangleFacingCullDisable := true : Instance }]

/-! ## Trace dispatch regions -/

/-- `vk::StridedBufferRegionKHR` (buffer handle omitted: the source always
passes `m_rtSBTBuffer.buffer`). -/
structure StridedBufferRegionKHR where
  offset : Nat
  stride : Nat
  size : Nat
  deriving DecidableEq, Repr

/-- The four binding-table regions computed by `Raytracer::raytrace`. -/
structure TraceRegions where
  raygen : StridedBufferRegionKHR
  miss : StridedBufferRegionKHR
  hit : StridedBufferRegionKHR
  callable : StridedBufferRegionKHR
  deriving DecidableEq, Repr

/-- The region arithmetic of `Raytracer::raytrace` (lines 475-489), a pure
function of the device handle size and the declared shader-group count. -/
def raytraceRegions (shaderGroupHandleSize : Nat) (groupCount : Nat) :
    TraceRegions :=
  let progSize := shaderGroupHandleSize   -- Size of a program identifier
  let rayGenOffset := 0 * progSize        -- Start at the beginning
  let missOffset := 1 * progSize          -- Jump over raygen
  let hitGroupOffset := 3 * progSize      -- Jump over the previous shaders
  let callableGroupOffset := 5 * progSize -- Jump over the previous shaders
  let sbtSize := groupCount * progSize
  { raygen := { offset := rayGenOffset, stride := progSize, size := sbtSize }
    miss := { offset := missOffset, stride := progSize, size := sbtSize }
    hit := { offset := hitGroupOffset, stride := progSize, size := sbtSize }
    callable :=
      { offset := callableGroupOffset, stride := progSize, size := sbtSize } }

/-! ## Ray-tracing pipeline: shader stages and shader groups -/

/-- Shader stage flags used by `createRtPipeline`. -/
inductive ShaderStageFlagBits
  | eRaygenKHR
  | eMissKHR
  | eClosestHitKHR
  | eAnyHitKHR
  | eIntersectionKHR
  | eCallableKHR
  deriving DecidableEq, Repr

/-- `vk::PipelineShaderStageCreateInfo`: a stage flag and its shader module,
identified by the SPIR-V file it was loaded from. -/
structure PipelineShaderStageCreateInfo where
  stage : ShaderStageFlagBits
  module : String
  deriving DecidableEq, Repr

/-- `vk::RayTracingShaderGroupTypeKHR`. -/
inductive RayTracingShaderGroupTypeKHR
  | eGeneral
  | eTrianglesHitGroup
  | eProceduralHitGroup
  deriving DecidableEq, Repr

/-- `vk::RayTracingShaderGroupCreateInfoKHR`; `none` stands for
`VK_SHADER_UNUSED_KHR`, `some i` references stage index `i`. -/
structure RayTracingShaderGroupCreateInfoKHR where
  type : RayTracingShaderGroupTypeKHR
  generalShader : Option Nat
  closestHitShader : Option Nat
  anyHitShader : Option Nat
  intersectionShader : Option Nat
  deriving DecidableEq, Repr

/-- The stage-list / shader-group construction of `Raytracer::createRtPipeline`
(lines 281-366), translated step by step.  `m_rtShaderGroups` is a member the
function appends to without clearing, so it is threaded as an argument; the
local `stages` vector always starts empty.  Returns the final stage list and
the final `m_rtShaderGroups`. -/
def createRtPipelineGroups
    (m_rtShaderGroups : List RayTracingShaderGroupCreateInfoKHR) :
    List PipelineShaderStageCreateInfo ×
      List RayTracingShaderGroupCreateInfoKHR :=
  let stages0 : List PipelineShaderStageCreateInfo := []
  -- Raygen: push the stage, set the group general shader to stages.size()-1
  let stages1 := stages0 ++ [⟨.eRaygenKHR, "shaders/raytrace.rgen.spv"⟩]
  let rg : RayTracingShaderGroupCreateInfoKHR :=
    { type := .eGeneral, generalShader := some (stages1.length - 1)
      closestHitShader := none, anyHitShader := none
      intersectionShader := none }
  let groups1 := m_rtShaderGroups ++ [rg]
  -- Miss
  let stages2 := stages1 ++ [⟨.eMissKHR, "shaders/raytrace.rmiss.spv"⟩]
  let mg1 : RayTracingShaderGroupCreateInfoKHR :=
    { type := .eGeneral, generalShader := some (stages2.length - 1)
      closestHitShader := none, anyHitShader := none
      intersectionShader := none }
  let groups2 := groups1 ++ [mg1]
  -- Shadow Miss (the source reuses the miss group variable with a new
  -- general-shader index)
  let stages3 := stages2 ++ [⟨.eMissKHR, "shaders/raytraceShadow.rmiss.spv"⟩]
  let mg2 : RayTracingShaderGroupCreateInfoKHR :=
    { type := .eGeneral, generalShader := some (stages3.length - 1)
      closestHitShader := none, anyHitShader := none
      intersectionShader := none }
  let groups3 := groups2 ++ [mg2]
  -- Hit Group0 - Closest Hit + AnyHit
  let stages4 := stages3 ++ [⟨.eClosestHitKHR, "shaders/raytrace.rchit.spv"⟩]
  let stages5 := stages4 ++ [⟨.eAnyHitKHR, "shaders/raytrace.rahit.spv"⟩]
  let hg : RayTracingShaderGroupCreateInfoKHR :=
    { type := .eTrianglesHitGroup, generalShader := none
      closestHitShader := some (stages4.length - 1)
      anyHitShader := some (stages5.length - 1)
      intersectionShader := none }
  let groups4 := groups3 ++ [hg]
  -- Hit Group1 - Closest Hit + AnyHit + Intersection (procedural)
  let stages6 := stages5 ++ [⟨.eClosestHitKHR, "shaders/raytrace2.rchit.spv"⟩]
  let stages7 := stages6 ++ [⟨.eAnyHitKHR, "shaders/raytrace2.rahit.spv"⟩]
  let stages8 := stages7 ++ [⟨.eIntersectionKHR, "shaders/raytrace.rint.spv"⟩]
  let ph : RayTracingShaderGroupCreateInfoKHR :=
    { type := .eProceduralHitGroup, generalShader := none
      closestHitShader := some (stages6.length - 1)
      anyHitShader := some (stages7.length - 1)
      intersectionShader := some (stages8.length - 1) }
  let groups5 := groups4 ++ [ph]
  -- Callable shaders (the source reuses one group variable three times)
  let stages9 := stages8 ++ [⟨.eCallableKHR, "shaders/light_point.rcall.spv"⟩]
  let cg1 : RayTracingShaderGroupCreateInfoKHR :=
    { type := .eGeneral, generalShader := some (stages9.length - 1)
      closestHitShader := none, anyHitShader := none
      intersectionShader := none }
  let groups6 := groups5 ++ [cg1]
  let stages10 := stages9 ++ [⟨.eCallableKHR, "shaders/light_spot.rcall.spv"⟩]
  let cg2 : RayTracingShaderGroupCreateInfoKHR :=
    { type := .eGeneral, generalShader := some (stages10.length - 1)
      closestHitShader := none, anyHitShader := none
      intersectionShader := none }
  let groups7 := groups6 ++ [cg2]
  let stages11 := stages10 ++ [⟨.eCallableKHR, "shaders/light_inf.rcall.spv"⟩]
  let cg3 : RayTracingShaderGroupCreateInfoKHR :=
    { type := .eGeneral, generalShader := some (stages11.length - 1)
      closestHitShader := none, anyHitShader := none
      intersectionShader := none }
  let groups8 := groups7 ++ [cg3]
  (stages11, groups8)

/-! ## Shader binding table packer -/

/-- The device contract of `getRayTracingShaderGroupHandlesKHR` for a query
starting at group 0 spanning all groups: the opaque per-group handles written
back to back into the output array.  `handles` is the device-side list of
per-group handles (each a byte list). -/
def getRayTracingShaderGroupHandlesKHR (handles : List (List Nat)) :
    List Nat :=
  handles.flatten

/-- The `sbtSize` computation of `Raytracer::createRtShaderBindingTable`
(line 426): `groupCount * groupHandleSize`. -/
def sbtSizeOf (groupCount groupHandleSize : Nat) : Nat :=
  groupCount * groupHandleSize

/-- `Raytracer::createRtShaderBindingTable` (lines 419-443): fetches all group
handles into `shaderHandleStorage` and uploads that byte array verbatim as the
SBT buffer (`createBuffer(cmdBuf, shaderHandleStorage, ...)` copies the host
vector unchanged).  The resulting buffer contents. -/
def createRtShaderBindingTable (handles : List (List Nat)) : List Nat :=
  let shaderHandleStorage := getRayTracingShaderGroupHandlesKHR handles
  shaderHandleStorage

/-- Reading back the `i`-th handle slot of an SBT buffer: the `handleSize`
bytes starting at offset `i * handleSize`. -/
def readHandle (sbt : List Nat) (handleSize i : Nat) : List Nat :=
  (sbt.drop (i * handleSize)).take handleSize

/-! ## Descriptor set state -/

/-- A descriptor value: binding 0 holds the TLAS, binding 1 the storage image
(both identified by a handle). -/
inductive Descriptor
  | accelerationStructure (tlas : Nat)
  | storageImage (imageView : Nat)
  deriving DecidableEq, Repr

/-- `vk::WriteDescriptorSet` restricted to what this file writes: a target
binding and its new descriptor. -/
structure WriteDescriptorSet where
  dstBinding : Nat
  descriptor : Descriptor
  deriving DecidableEq, Repr

/-- A descriptor set is its binding table. -/
def DescSet : Type := Nat → Option Descriptor

/-- `device.updateDescriptorSets`: apply each write to its target binding. -/
def updateDescriptorSets (s : DescSet) (writes : List WriteDescriptorSet) :
    DescSet :=
  writes.foldl
    (fun s w => Function.update s w.dstBinding (some w.descriptor)) s

/-- `Raytracer::updateRtDescriptorSet` (lines 249-257): a single
`WriteDescriptorSet` targeting binding 1 with the storage image. -/
def updateRtDescriptorSet (s : DescSet) (outputImage : Nat) : DescSet :=
  let wds : WriteDescriptorSet := ⟨1, .storageImage outputImage⟩
  updateDescriptorSets s [wds]

/-! ## Concrete example inputs, used to evaluate the definitions -/

/-- Two triangle batches: 6 and 9 indices. -/
def exModels : List ObjModel := [⟨6, 4, 100, 200⟩, ⟨9, 5, 300, 400⟩]

/-- Three scene instances over the two models. -/
def exInstances : List ObjInstance := [⟨⟨1⟩, 0⟩, ⟨⟨2⟩, 1⟩, ⟨⟨3⟩, 0⟩]

/-- A non-empty implicit set with two primitives. -/
def exImplicit : ImplInst := ⟨[⟨0⟩, ⟨1⟩], 500, ⟨4⟩, 0⟩

/-- An empty implicit set. -/
def exImplicitEmpty : ImplInst := ⟨[], 500, ⟨4⟩, 0⟩

/-- A descriptor set holding a TLAS at binding 0 and nothing else. -/
def exDescSet : DescSet :=
  fun b => if b = 0 then some (.accelerationStructure 7) else none

/-- Three 2-byte shader-group handles. -/
def exHandles3 : List (List Nat) := [[1, 2], [3, 4], [5, 6]]

/-- Eight 32-byte shader-group handles (the scenario of the spec). -/
def exHandles8 : List (List Nat) := List.replicate 8 (List.replicate 32 0)

/-! ## General lemmas about uniform-width concatenated buffers -/

/-- The flattening of equal-length byte lists has length `count * width`. -/
theorem flatten_length_of_uniform (handles : List (List Nat)) (k : Nat)
    (hs : ∀ hnd ∈ handles, hnd.length = k) :
    handles.flatten.length = handles.length * k := by
  induction handles with
  | nil => simp
  | cons hd tl ih =>
    have hhd : hd.length = k := hs hd (by simp)
    have htl : ∀ hnd ∈ tl, hnd.length = k := fun hnd h => hs hnd (by simp [h])
    simp [List.flatten_cons, hhd, ih htl, Nat.succ_mul, Nat.add_comm]

/-- Slicing `k` bytes at offset `i * k` out of the flattening of equal-length
byte lists recovers the `i`-th list. -/
theorem flatten_slice_of_uniform (handles : List (List Nat)) (k : Nat)
    (hs : ∀ hnd ∈ handles, hnd.length = k) :
    ∀ i (hi : i < handles.length),
      ((handles.flatten.drop (i * k)).take k) = handles[i] := by
  induction handles with
  | nil => intro i hi; simp at hi
  | cons hd tl ih =>
    intro i hi
    have hhd : hd.length = k := hs hd (by simp)
    have htl : ∀ hnd ∈ tl, hnd.length = k := fun hnd h => hs hnd (by simp [h])
    cases i with
    | zero =>
      simp only [Nat.zero_mul, List.drop_zero, List.flatten_cons]
      rw [List.take_left' hhd]
      rfl
    | succ i =>
      have hlt : i < tl.length := by simpa using hi
      have hmul : (i + 1) * k = hd.length + i * k := by rw [hhd]; ring
      rw [List.flatten_cons, hmul, List.drop_append]
      simpa using ih htl i hlt

/-! ## Claim theorems -/

/-- C1: In the trace dispatch (`raytrace`), the four binding-table region
offsets are a pure function of group index and handle size: for every
`handleSize > 0`, the raygen region offset is `0`, the miss region offset is
`1 * handleSize`, the hit region offset is `3 * handleSize`, and the callable
region offset is `5 * handleSize`; every region's stride equals `handleSize`
and every region's total size equals `handleSize` times the total
shader-group count. -/
theorem raytrace_region_layout (handleSize groupCount : Nat)
    (h : 0 < handleSize) :
    (raytraceRegions handleSize groupCount).raygen.offset = 0 ∧
    (raytraceRegions handleSize groupCount).miss.offset = 1 * handleSize ∧
    (raytraceRegions handleSize groupCount).hit.offset = 3 * handleSize ∧
    (raytraceRegions handleSize groupCount).callable.offset = 5 * handleSize ∧
    ((raytraceRegions handleSize groupCount).raygen.stride = handleSize ∧
     (raytraceRegions handleSize groupCount).miss.stride = handleSize ∧
     (raytraceRegions handleSize groupCount).hit.stride = handleSize ∧
     (raytraceRegions handleSize groupCount).callable.stride = handleSize) ∧
    ((raytraceRegions handleSize groupCount).raygen.size
        = handleSize * groupCount ∧
     (raytraceRegions handleSize groupCount).miss.size
        = handleSize * groupCount ∧
     (raytraceRegions handleSize groupCount).hit.size
        = handleSize * groupCount ∧
     (raytraceRegions handleSize groupCount).callable.size
        = handleSize * groupCount) := by
  simp [raytraceRegions, Nat.mul_comm]

/-- Witness for C1 at `handleSize = 32`, `groupCount = 8`. -/
theorem raytrace_region_layout_witness :
    0 < 32 ∧
    (raytraceRegions 32 8).callable.offset = 5 * 32 ∧
    (raytraceRegions 32 8).callable.size = 32 * 8 :=
  ⟨by decide, (raytrace_region_layout 32 8 (by decide)).2.2.2.1,
    (raytrace_region_layout 32 8 (by decide)).2.2.2.2.2.2.2.2⟩

/-- C4 counterexample: `objectToVkGeometryKHR` does not fail on an index
count that is not a multiple of 3.  On a batch with 4 indices (4 % 3 ≠ 0) it
succeeds and returns a one-geometry triangle descriptor whose primitive count
is the truncated `4 / 3 = 1`; the source contains no validation or error
path. -/
theorem objectToVkGeometryKHR_accepts_nonmultiple :
    4 % 3 ≠ 0 ∧
    (objectToVkGeometryKHR ⟨4, 3, 100, 200⟩).asCreateGeometryInfo.map
      (fun c => c.maxPrimitiveCount) = [1] ∧
    (objectToVkGeometryKHR ⟨4, 3, 100, 200⟩).asGeometry.map
      (fun g => g.geometryType) = [GeometryTypeKHR.eTriangles] := by
  decide

/-- C4 amended: constructing a triangle geometry descriptor never fails; for
every batch (including one whose index count is not a multiple of 3) the
descriptor is built with primitive count `nbIndices / 3`, truncating and
silently ignoring any leftover indices. -/
theorem objectToVkGeometryKHR_truncates (model : ObjModel) :
    (objectToVkGeometryKHR model).asCreateGeometryInfo.map
      (fun c => c.maxPrimitiveCount) = [model.nbIndices / 3] ∧
    (objectToVkGeometryKHR model).asBuildOffsetInfo.map
      (fun o => o.primitiveCount) = [model.nbIndices / 3] ∧
    (objectToVkGeometryKHR model).asGeometry.map
      (fun g => g.geometryType) = [GeometryTypeKHR.eTriangles] := by
  simp [objectToVkGeometryKHR]

/-- C5 counterexample: with 8 shader groups and a 32-byte handle, the
callable region's `size` field computed by `raytrace` is the full SBT size
`8 * 32 = 256`, not `96`: the source sets every region's size to
`m_rtShaderGroups.size() * progSize`. -/
theorem callable_region_size_cex :
    (raytraceRegions 32 8).callable.size = 256 ∧
    ¬ (raytraceRegions 32 8).callable.size = 96 := by
  decide

/-- C5 amended: for a pipeline with 8 declared shader groups and a device
handle size of 32 bytes, `createRtShaderBindingTable` produces an SBT buffer
of exactly 256 bytes, and the trace dispatch's callable region has offset 160
bytes, stride 32 bytes, and size 256 bytes (the full SBT size, since the code
gives every region the total SBT size). -/
theorem sbt_scenario_8_groups (handles : List (List Nat))
    (h8 : handles.length = 8) (h32 : ∀ hnd ∈ handles, hnd.length = 32) :
    (createRtShaderBindingTable handles).length = 256 ∧
    sbtSizeOf 8 32 = 256 ∧
    (raytraceRegions 32 8).callable.offset = 160 ∧
    (raytraceRegions 32 8).callable.stride = 32 ∧
    (raytraceRegions 32 8).callable.size = 256 := by
  refine ⟨?_, by decide, by decide, by decide, by decide⟩
  have hlen := flatten_length_of_uniform handles 32 h32
  simp [createRtShaderBindingTable, getRayTracingShaderGroupHandlesKHR, hlen,
    h8]

/-- Witness for C5 (amended) on eight 32-byte handles. -/
theorem sbt_scenario_8_groups_witness :
    exHandles8.length = 8 ∧
    (createRtShaderBindingTable exHandles8).length = 256 :=
  ⟨by decide, (sbt_scenario_8_groups exHandles8 (by decide) (by decide)).1⟩

/-- C2: `createRtPipeline` declares exactly eight shader groups in the fixed
order assumed by the trace dispatcher: the raygen group at index 0, the miss
group at index 1, the shadow-miss group at index 2, the triangle hit group at
index 3, the procedural hit group at index 4, and the three callable groups
at indices 5, 6 and 7; the declared sequence is the same on every call
(whatever `m_rtShaderGroups` already holds, the call appends exactly this
fixed sequence).  Each group is identified by its type and by the stage its
shader slots reference. -/
theorem createRtPipeline_group_order :
    (∀ prior, (createRtPipelineGroups prior).2 =
        prior ++ (createRtPipelineGroups []).2) ∧
    (∀ prior, (createRtPipelineGroups prior).1 =
        (createRtPipelineGroups []).1) ∧
    (createRtPipelineGroups []).2.length = 8 ∧
    (createRtPipelineGroups []).1 =
      [⟨.eRaygenKHR, "shaders/raytrace.rgen.spv"⟩,
       ⟨.eMissKHR, "shaders/raytrace.rmiss.spv"⟩,
       ⟨.eMissKHR, "shaders/raytraceShadow.rmiss.spv"⟩,
       ⟨.eClosestHitKHR, "shaders/raytrace.rchit.spv"⟩,
       ⟨.eAnyHitKHR, "shaders/raytrace.rahit.spv"⟩,
       ⟨.eClosestHitKHR, "shaders/raytrace2.rchit.spv"⟩,
       ⟨.eAnyHitKHR, "shaders/raytrace2.rahit.spv"⟩,
       ⟨.eIntersectionKHR, "shaders/raytrace.rint.spv"⟩,
       ⟨.eCallableKHR, "shaders/light_point.rcall.spv"⟩,
       ⟨.eCallableKHR, "shaders/light_spot.rcall.spv"⟩,
       ⟨.eCallableKHR, "shaders/light_inf.rcall.spv"⟩] ∧
    (createRtPipelineGroups []).2 =
      [⟨.eGeneral, some 0, none, none, none⟩,
       ⟨.eGeneral, some 1, none, none, none⟩,
       ⟨.eGeneral, some 2, none, none, none⟩,
       ⟨.eTrianglesHitGroup, none, some 3, some 4, none⟩,
       ⟨.eProceduralHitGroup, none, some 5, some 6, some 7⟩,
       ⟨.eGeneral, some 8, none, none, none⟩,
       ⟨.eGeneral, some 9, none, none, none⟩,
       ⟨.eGeneral, some 10, none, none, none⟩] := by
  refine ⟨?_, ?_, by decide, by decide, by decide⟩
  · intro prior
    simp [createRtPipelineGroups]
  · intro prior
    simp [createRtPipelineGroups]

/-- C3: for every scene with `N` mesh instances and a non-empty implicit set,
`createTopLevelAS` builds a TLAS instance sequence of exactly `N + 1`
records, in which the last record's hit-group selector equals 1 and the
hit-group selector of every other record equals 0. -/
theorem createTopLevelAS_implicit_scene (instances : List ObjInstance)
    (implicitObj : ImplInst) (h : implicitObj.objImpl ≠ []) :
    (createTopLevelAS instances implicitObj).length = instances.length + 1 ∧
    (createTopLevelAS instances implicitObj).getLast?.map
      (fun r => r.hitGroupId) = some 1 ∧
    ∀ r ∈ (createTopLevelAS instances implicitObj).dropLast,
      r.hitGroupId = 0 := by
  have hne : implicitObj.objImpl.isEmpty = false := by
    simp [List.isEmpty_iff, h]
  refine ⟨?_, ?_, ?_⟩
  · simp [createTopLevelAS, hne]
  · simp [createTopLevelAS, hne, List.getLast?_concat]
  · simp [createTopLevelAS, hne]
    intro r i inst _ heq
    subst heq
    rfl

/-- Witness for C3: 3 instances + a 2-element implicit set give 4 records,
last selector 1, other selectors 0. -/
theorem createTopLevelAS_implicit_scene_witness :
    exImplicit.objImpl ≠ [] ∧
    (createTopLevelAS exInstances exImplicit).length = 3 + 1 ∧
    (createTopLevelAS exInstances exImplicit).getLast?.map
      (fun r => r.hitGroupId) = some 1 :=
  ⟨by decide,
   (createTopLevelAS_implicit_scene exInstances exImplicit (by decide)).1,
   (createTopLevelAS_implicit_scene exInstances exImplicit (by decide)).2.1⟩

/-- C6: the SBT buffer written by `createRtShaderBindingTable` is exactly the
concatenation, in group-index order, of one opaque handle per declared shader
group, each entry exactly `handleSize` bytes, total size
`groupCount * handleSize`; reading the buffer back slot by slot yields the
same handles in the same order they were packed. -/
theorem createRtShaderBindingTable_roundtrip (handles : List (List Nat))
    (handleSize : Nat) (hs : ∀ hnd ∈ handles, hnd.length = handleSize) :
    createRtShaderBindingTable handles = handles.flatten ∧
    (createRtShaderBindingTable handles).length
      = handles.length * handleSize ∧
    ∀ i, i < handles.length →
      some (readHandle (createRtShaderBindingTable handles) handleSize i)
        = handles[i]? := by
  refine ⟨rfl, flatten_length_of_uniform handles handleSize hs, ?_⟩
  intro i hi
  have hslice := flatten_slice_of_uniform handles handleSize hs i hi
  simp [readHandle, createRtShaderBindingTable,
    getRayTracingShaderGroupHandlesKHR, hslice, List.getElem?_eq_getElem hi]

/-- Witness for C6 on three 2-byte handles: slot 1 reads back `[3, 4]`. -/
theorem createRtShaderBindingTable_roundtrip_witness :
    (∀ hnd ∈ exHandles3, hnd.length = 2) ∧
    some (readHandle (createRtShaderBindingTable exHandles3) 2 1)
      = exHandles3[1]? :=
  ⟨by decide,
   (createRtShaderBindingTable_roundtrip exHandles3 2 (by decide)).2.2 1
     (by decide)⟩

/-- C7: when the implicit set is non-empty, `createBottomLevelAS` appends the
aggregate implicit BLAS after all mesh BLAS (one entry per mesh batch
followed by exactly one implicit BLAS), and records that BLAS's index (the
number of mesh batches) into the caller-visible `implicitObj.blasId`. -/
theorem createBottomLevelAS_appends_implicit (models : List ObjModel)
    (implicitObj : ImplInst) (h : implicitObj.objImpl ≠ []) :
    (createBottomLevelAS models implicitObj).1 =
      models.map (fun obj => objectToVkGeometryKHR obj) ++
        [implicitToVkGeometryKHR implicitObj] ∧
    (createBottomLevelAS models implicitObj).1.length = models.length + 1 ∧
    (createBottomLevelAS models implicitObj).2.blasId = models.length ∧
    (createBottomLevelAS models implicitObj).2.objImpl
      = implicitObj.objImpl := by
  have hne : implicitObj.objImpl.isEmpty = false := by
    simp [List.isEmpty_iff, h]
  simp [createBottomLevelAS, hne]

/-- Witness for C7: 2 mesh batches + a non-empty implicit set give 3 BLAS
and `blasId = 2`. -/
theorem createBottomLevelAS_appends_implicit_witness :
    exImplicit.objImpl ≠ [] ∧
    (createBottomLevelAS exModels exImplicit).1.length = 2 + 1 ∧
    (createBottomLevelAS exModels exImplicit).2.blasId = 2 :=
  ⟨by decide,
   (createBottomLevelAS_appends_implicit exModels exImplicit (by decide)).2.1,
   (createBottomLevelAS_appends_implicit exModels exImplicit
     (by decide)).2.2.1⟩

/-- C8: for every scene whose implicit set is empty, `createBottomLevelAS`
appends no implicit BLAS (exactly one BLAS per mesh batch, `implicitObj`
untouched) and `createTopLevelAS` creates no synthetic instance record
(exactly one record per mesh instance). -/
theorem empty_implicit_no_synthetic (models : List ObjModel)
    (instances : List ObjInstance) (implicitObj : ImplInst)
    (h : implicitObj.objImpl = []) :
    (createBottomLevelAS models implicitObj).1 =
      models.map (fun obj => objectToVkGeometryKHR obj) ∧
    (createBottomLevelAS models implicitObj).1.length = models.length ∧
    (createBottomLevelAS models implicitObj).2 = implicitObj ∧
    (createTopLevelAS instances implicitObj).length = instances.length := by
  simp [createBottomLevelAS, createTopLevelAS, h]

/-- Witness for C8: 2 mesh batches, 3 instances, empty implicit set. -/
theorem empty_implicit_no_synthetic_witness :
    exImplicitEmpty.objImpl = [] ∧
    (createBottomLevelAS exModels exImplicitEmpty).1.length = 2 ∧
    (createTopLevelAS exInstances exImplicitEmpty).length = 3 :=
  ⟨by decide,
   (empty_implicit_no_synthetic exModels exInstances exImplicitEmpty
     (by decide)).2.1,
   (empty_implicit_no_synthetic exModels exInstances exImplicitEmpty
     (by decide)).2.2.2⟩

/-- C9: `updateRtDescriptorSet` writes only binding 1 (the storage image) of
the ray-tracing descriptor set: every other binding, in particular binding 0
(the acceleration structure), is left unchanged. -/
theorem updateRtDescriptorSet_writes_only_binding1 (s : DescSet)
    (outputImage : Nat) :
    (∀ b, b ≠ 1 → updateRtDescriptorSet s outputImage b = s b) ∧
    updateRtDescriptorSet s outputImage 1
      = some (Descriptor.storageImage outputImage) := by
  constructor
  · intro b hb
    simp [updateRtDescriptorSet, updateDescriptorSets,
      Function.update_noteq hb]
  · simp [updateRtDescriptorSet, updateDescriptorSets]

/-- Witness for C9: updating a set holding a TLAS at binding 0 leaves
binding 0 intact and rewrites binding 1. -/
theorem updateRtDescriptorSet_writes_only_binding1_witness :
    updateRtDescriptorSet exDescSet 5 0 = exDescSet 0 ∧
    updateRtDescriptorSet exDescSet 5 1 = some (Descriptor.storageImage 5) :=
  ⟨(updateRtDescriptorSet_writes_only_binding1 exDescSet 5).1 0 (by decide),
   (updateRtDescriptorSet_writes_only_binding1 exDescSet 5).2⟩

/-- C10: in the TLAS sequence built by `createTopLevelAS` (after
`createBottomLevelAS` recorded the implicit BLAS index), the instance
identifier of the `i`-th mesh record equals its position `i`, while the
synthetic implicit-aggregate record's instance identifier equals the recorded
implicit BLAS index — the number of mesh BLAS — which is not the next
sequence position whenever the model count differs from the instance
count. -/
theorem tlas_instance_identifiers (models : List ObjModel)
    (instances : List ObjInstance) (implicitObj : ImplInst)
    (h : implicitObj.objImpl ≠ []) :
    (∀ i, i < instances.length →
      ((createTopLevelAS instances
          (createBottomLevelAS models implicitObj).2)[i]?).map
        (fun r => r.instanceId) = some i) ∧
    ((createTopLevelAS instances
        (createBottomLevelAS models implicitObj).2).getLast?.map
      (fun r => r.instanceId) = some models.length) ∧
    (models.length ≠ instances.length →
      ((createTopLevelAS instances
          (createBottomLevelAS models implicitObj).2).getLast?.map
        (fun r => r.instanceId)) ≠ some instances.length) := by
  have hne : implicitObj.objImpl.isEmpty = false := by
    simp [List.isEmpty_iff, h]
  have h2 : (createBottomLevelAS models implicitObj).2 =
      { implicitObj with blasId := models.length } := by
    simp [createBottomLevelAS, hne]
  have hne2 : ({ implicitObj with blasId := models.length } :
      ImplInst).objImpl.isEmpty = false := hne
  refine ⟨?_, ?_, ?_⟩
  · intro i hi
    rw [h2]
    simp [createTopLevelAS, hne2, List.getElem?_append,
      List.getElem?_enum, List.getElem?_eq_getElem hi, hi]
  · rw [h2]
    simp [createTopLevelAS, hne2, List.getLast?_concat]
  · intro hneq
    rw [h2]
    simp [createTopLevelAS, hne2, List.getLast?_concat, hneq]

/-- Witness for C10: 2 models, 3 instances, non-empty implicit set; the mesh
record at position 1 has identifier 1, the synthetic record's identifier is
2 (the mesh BLAS count), which differs from its sequence position 3. -/
theorem tlas_instance_identifiers_witness :
    exImplicit.objImpl ≠ [] ∧
    ((createTopLevelAS exInstances
        (createBottomLevelAS exModels exImplicit).2)[1]?).map
      (fun r => r.instanceId) = some 1 ∧
    ((createTopLevelAS exInstances
        (createBottomLevelAS exModels exImplicit).2).getLast?.map
      (fun r => r.instanceId) = some 2) ∧
    ((createTopLevelAS exInstances
        (createBottomLevelAS exModels exImplicit).2).getLast?.map
      (fun r => r.instanceId) ≠ some 3) :=
  ⟨by decide,
   (tlas_instance_identifiers exModels exInstances exImplicit
     (by decide)).1 1 (by decide),
   (tlas_instance_identifiers exModels exInstances exImplicit (by decide)).2.1,
   (tlas_instance_identifiers exModels exInstances exImplicit
     (by decide)).2.2 (by decide)⟩

end Raytrace
